import Mathlib

/-!
Verification of the Alnor Home Assistant integration's humidity-control and
connection-fallback logic, as a shallow embedding of the Python sources in
`custom_components/alnor/`.

Timestamps are modelled as rationals (seconds); humidity readings, targets
and hysteresis values as integers, exactly as the Python code stores them.
-/

namespace Alnor

/-! ## Configuration model

`HumidityOptions` models the per-device slice of `config_entry.options`
relevant to humidity control: every key may be absent (`none`), in which
case each implementation substitutes its own default. -/

structure HumidityOptions where
  hysteresis : Option Int
  target : Option Int
  highMode : Option String
  lowMode : Option String
  cooldown : Option Int
deriving DecidableEq, Repr

/-- Defaults from `const.py` (`DEFAULT_HUMIDITY_*`), used by the mixin. -/
def DEFAULT_HUMIDITY_HYSTERESIS : Int := 5

def DEFAULT_HUMIDITY_COOLDOWN : Int := 60

def DEFAULT_HUMIDITY_HIGH_MODE : String := "home_plus"

def DEFAULT_HUMIDITY_LOW_MODE : String := "home"

/-- Fixed cooldown constant in `climate.py` (`HUMIDITY_CONTROL_COOLDOWN = 120`). -/
def CLIMATE_HUMIDITY_CONTROL_COOLDOWN : Int := 120

/-- Default fallback cooldown constant in `humidifier.py`
(`HUMIDITY_CONTROL_COOLDOWN = 60`). -/
def HUMIDIFIER_HUMIDITY_CONTROL_COOLDOWN : Int := 60

/-- Resolved configuration, mirroring
`HumidityControlMixin._get_humidity_config`. -/
structure HumidityConfig where
  hysteresis : Int
  target : Option Int
  highMode : String
  lowMode : String
  cooldown : Int
deriving DecidableEq, Repr

/-- `HumidityControlMixin._get_humidity_config`: each option key resolved
with the `const.py` default. -/
def getHumidityConfig (o : HumidityOptions) : HumidityConfig :=
  { hysteresis := o.hysteresis.getD DEFAULT_HUMIDITY_HYSTERESIS
    target := o.target
    highMode := o.highMode.getD DEFAULT_HUMIDITY_HIGH_MODE
    lowMode := o.lowMode.getD DEFAULT_HUMIDITY_LOW_MODE
    cooldown := o.cooldown.getD DEFAULT_HUMIDITY_COOLDOWN }

/-! ## The humidity check

All three `_check_humidity_control` implementations are modelled as pure
functions from a `CheckInput` (entity state plus everything the method
reads: options, aggregated humidity, current device mode, wall clock) to a
`CheckResult` recording the ventilation-mode commands issued (in order)
and the new `_last_mode_change` timestamp. -/

structure CheckInput where
  enabled : Bool
  options : HumidityOptions
  current : Option Int
  currentMode : Option String
  lastModeChange : Option ℚ
  now : ℚ
deriving DecidableEq

structure CheckResult where
  cmds : List String
  lastModeChange : Option ℚ
deriving DecidableEq, Repr

/-- `HumidityControlMixin._check_humidity_control`: resolved config,
cooldown gate, thresholds clamped to `[1, 99]`, strict comparisons,
high branch before low branch. -/
def mixinCheck (i : CheckInput) : CheckResult :=
  if !i.enabled then ⟨[], i.lastModeChange⟩
  else
    let cfg := getHumidityConfig i.options
    match i.current, cfg.target with
    | some current, some target =>
        let proceed : CheckResult :=
          let upper := min (target + cfg.hysteresis) 99
          let lower := max (target - cfg.hysteresis) 1
          if current > upper ∧ i.currentMode ≠ some cfg.highMode then
            ⟨[cfg.highMode], some i.now⟩
          else if current < lower ∧ i.currentMode ≠ some cfg.lowMode then
            ⟨[cfg.lowMode], some i.now⟩
          else ⟨[], i.lastModeChange⟩
        match i.lastModeChange with
        | some t =>
            if i.now - t < (cfg.cooldown : ℚ) then ⟨[], i.lastModeChange⟩
            else proceed
        | none => proceed
    | _, _ => ⟨[], i.lastModeChange⟩

/-- `AlnorHumidifier._check_humidity_control`: inline defaults
(hysteresis 5, high "home_plus", low "home", cooldown 60), unclamped
thresholds, and a nested high branch: when `current > upper` but the mode
is already the high mode, the low branch is never considered. -/
def humidifierCheck (i : CheckInput) : CheckResult :=
  if !i.enabled then ⟨[], i.lastModeChange⟩
  else
    let hysteresis := i.options.hysteresis.getD 5
    let highMode := i.options.highMode.getD "home_plus"
    let lowMode := i.options.lowMode.getD "home"
    match i.current, i.options.target with
    | some current, some target =>
        let proceed : CheckResult :=
          let upper := target + hysteresis
          let lower := target - hysteresis
          if current > upper then
            if i.currentMode ≠ some highMode then ⟨[highMode], some i.now⟩
            else ⟨[], i.lastModeChange⟩
          else if current < lower ∧ i.currentMode ≠ some lowMode then
            ⟨[lowMode], some i.now⟩
          else ⟨[], i.lastModeChange⟩
        match i.lastModeChange with
        | some t =>
            let cooldown := i.options.cooldown.getD HUMIDIFIER_HUMIDITY_CONTROL_COOLDOWN
            if i.now - t < (cooldown : ℚ) then ⟨[], i.lastModeChange⟩
            else proceed
        | none => proceed
    | _, _ => ⟨[], i.lastModeChange⟩

/-- `AlnorClimate._check_humidity_control`: inline defaults
(hysteresis 5, high "party", low "home"), a fixed 120-second cooldown
constant (the configured cooldown key is never read), unclamped
thresholds, strict comparisons, high branch before low branch. -/
def climateCheck (i : CheckInput) : CheckResult :=
  if !i.enabled then ⟨[], i.lastModeChange⟩
  else
    let hysteresis := i.options.hysteresis.getD 5
    let highMode := i.options.highMode.getD "party"
    let lowMode := i.options.lowMode.getD "home"
    match i.current, i.options.target with
    | some current, some target =>
        let proceed : CheckResult :=
          let upper := target + hysteresis
          let lower := target - hysteresis
          if current > upper ∧ i.currentMode ≠ some highMode then
            ⟨[highMode], some i.now⟩
          else if current < lower ∧ i.currentMode ≠ some lowMode then
            ⟨[lowMode], some i.now⟩
          else ⟨[], i.lastModeChange⟩
        match i.lastModeChange with
        | some t =>
            if i.now - t < (CLIMATE_HUMIDITY_CONTROL_COOLDOWN : ℚ) then
              ⟨[], i.lastModeChange⟩
            else proceed
        | none => proceed
    | _, _ => ⟨[], i.lastModeChange⟩

/-- The clamped upper threshold computed by the mixin
(line `upper_threshold = min(config["target"] + config["hysteresis"], 99)`). -/
def mixinUpperThreshold (target hysteresis : Int) : Int :=
  min (target + hysteresis) 99

/-- The clamped lower threshold computed by the mixin. -/
def mixinLowerThreshold (target hysteresis : Int) : Int :=
  max (target - hysteresis) 1

/-- The unclamped upper threshold computed by `climate.py` and
`humidifier.py` (`upper_threshold = target + hysteresis`). -/
def rawUpperThreshold (target hysteresis : Int) : Int :=
  target + hysteresis

/-- The unclamped lower threshold computed by `climate.py` and
`humidifier.py`. -/
def rawLowerThreshold (target hysteresis : Int) : Int :=
  target - hysteresis

/-! ## Sensor aggregation

`_get_current_humidity` (mixin) and the `current_humidity` properties of
the humidifier and climate entities run the same loop: for each configured
sensor, skip it when `hass.states.get` returns nothing or the state is
`unavailable`/`unknown`, parse the state with `int(float(state))`
(skipping on `ValueError`/`TypeError`), and return the maximum of the
parsed values, or `None` when nothing parsed. A sensor's observable state
is modelled by `SensorVal`; a state string that `float()` accepts is the
`num` case carrying the parsed rational. -/

inductive SensorVal where
  | missing
  | unavailable
  | unknown
  | unparseable
  | num (q : ℚ)
deriving DecidableEq, Repr

/-- Python `int(x)` on a float: truncation toward zero
(`Int.tdiv` is truncating division). -/
def truncTowardZero (q : ℚ) : Int :=
  q.num.tdiv q.den

/-- One iteration of the sensor loop: the value contributed to
`humidity_values`, or `none` when the sensor is skipped. -/
def parseSensor : SensorVal → Option Int
  | .num q => some (truncTowardZero q)
  | _ => none

/-- `_get_current_humidity`: `max(humidity_values) if humidity_values else
None` over the parsed readings (an empty configured-sensor list also
yields `None`, through the early return). -/
def getCurrentHumidity (sensors : List SensorVal) : Option Int :=
  (sensors.filterMap parseSensor).max?

/-! ## Setting the target humidity

`async_set_humidity` in `humidifier.py` and `climate.py`, modelled as a
pure function over the entity-visible state together with the list of
side effects performed, in order. -/

structure CtlState where
  enabled : Bool
  lastModeChange : Option ℚ
deriving DecidableEq, Repr

inductive SetHumidityEffect where
  | persistTarget (value : Int)
  | writeHaState
  | runCheck
deriving DecidableEq, Repr

structure HumidifierSetHumidityResult where
  targetCached : Option Int
  options : HumidityOptions
  ctl : CtlState
  effects : List SetHumidityEffect
deriving DecidableEq, Repr

/-- `AlnorHumidifier.async_set_humidity`: values outside `0..100` are
rejected before anything is touched; otherwise the cached target is
updated, the new target is persisted to the config-entry options, the HA
state is written, and a humidity check runs when control is enabled. -/
def humidifierSetHumidity (targetCached : Option Int) (o : HumidityOptions)
    (ctl : CtlState) (humidity : Int) : HumidifierSetHumidityResult :=
  if humidity < 0 ∨ 100 < humidity then
    ⟨targetCached, o, ctl, []⟩
  else
    ⟨some humidity, { o with target := some humidity }, ctl,
      [SetHumidityEffect.persistTarget humidity, SetHumidityEffect.writeHaState]
        ++ (if ctl.enabled then [SetHumidityEffect.runCheck] else [])⟩

structure ClimateSetHumidityResult where
  options : HumidityOptions
  ctl : CtlState
  effects : List SetHumidityEffect
deriving DecidableEq, Repr

/-- `AlnorClimate.async_set_humidity`: same guard, no cached target and no
HA state write. -/
def climateSetHumidity (o : HumidityOptions) (ctl : CtlState)
    (humidity : Int) : ClimateSetHumidityResult :=
  if humidity < 0 ∨ 100 < humidity then
    ⟨o, ctl, []⟩
  else
    ⟨{ o with target := some humidity }, ctl,
      [SetHumidityEffect.persistTarget humidity]
        ++ (if ctl.enabled then [SetHumidityEffect.runCheck] else [])⟩

/-! ## Coordinator: connection setup and polling

`AlnorDataUpdateCoordinator` state relevant to `_setup_device_connection`
and `_async_update_data`, as association lists keyed by device id.
Device state snapshots returned by `get_state` are opaque and modelled
as naturals. -/

inductive PType where
  | heatRecoveryUnit
  | exhaustFan
  | co2SensorVMI
  | co2SensorVMS
  | humiditySensorVMI
  | humiditySensorVMS
  | other
deriving DecidableEq, Repr

structure Device where
  deviceId : String
  host : String
  productType : PType
deriving DecidableEq, Repr

inductive Client where
  | localClient (ip : String)
  | cloudClient (deviceId : String)
deriving DecidableEq, Repr

structure Controller where
  client : Client
  device : Device
deriving DecidableEq, Repr

/-- `AlnorDataUpdateCoordinator._create_controller`: a controller is built
for the known product types and `None` is returned for any other. -/
def createController (client : Client) (device : Device) : Option Controller :=
  match device.productType with
  | .other => none
  | _ => some ⟨client, device⟩

inductive ConnMode where
  | local
  | cloud
deriving DecidableEq, Repr

structure CoordState where
  cloudClients : List (String × Client)
  modbusClients : List (String × Client)
  controllers : List (String × Controller)
  connectionModes : List (String × ConnMode)
deriving DecidableEq, Repr

/-- Python dict assignment on an association list: replace the value if
the key is present, append otherwise. -/
def setAssoc {α : Type} (l : List (String × α)) (k : String) (v : α) :
    List (String × α) :=
  if (l.lookup k).isSome then
    l.map (fun p => if p.1 = k then (k, v) else p)
  else l ++ [(k, v)]

/-- Events recorded while `_setup_device_connection` runs, in order. -/
inductive SetupEvent where
  | createdCloudClient (deviceId : String)
  | builtController (client : Client)
deriving DecidableEq, Repr

structure SetupOutcome where
  state : CoordState
  events : List SetupEvent
deriving DecidableEq, Repr

/-- `local_ips.get(device_id) or device.host`: the explicit override wins
unless it is missing or empty (falsy). -/
def candidateLocalIp (localIps : List (String × String)) (device : Device) :
    String :=
  match localIps.lookup device.deviceId with
  | some ip => if ip = "" then device.host else ip
  | none => device.host

/-- `AlnorDataUpdateCoordinator._setup_device_connection`.
`localConnectOk ip` tells whether `ModbusClient(ip, 502).connect()`
succeeds; `apiReady` is whether `self.api` is set. The Python `if
local_ip:` truth test is the non-emptiness test on the candidate. -/
def setupDeviceConnection (localIps : List (String × String))
    (localConnectOk : String → Bool) (apiReady : Bool)
    (s : CoordState) (device : Device) : SetupOutcome :=
  let id := device.deviceId
  let ip := candidateLocalIp localIps device
  if ip ≠ "" ∧ localConnectOk ip then
    let client := Client.localClient ip
    let s1 := { s with modbusClients := setAssoc s.modbusClients id client }
    match createController client device with
    | some ctrl =>
        ⟨{ s1 with
            controllers := setAssoc s1.controllers id ctrl
            connectionModes := setAssoc s1.connectionModes id ConnMode.local },
          [SetupEvent.builtController client]⟩
    | none => ⟨s1, []⟩
  else
    if apiReady then
      let client := Client.cloudClient id
      let s1 := { s with cloudClients := setAssoc s.cloudClients id client }
      match createController client device with
      | some ctrl =>
          ⟨{ s1 with
              controllers := setAssoc s1.controllers id ctrl
              connectionModes := setAssoc s1.connectionModes id ConnMode.cloud },
            [SetupEvent.createdCloudClient id, SetupEvent.builtController client]⟩
      | none => ⟨s1, [SetupEvent.createdCloudClient id]⟩
    else ⟨s, []⟩

/-- Outcome of one `_async_update_data` polling cycle: final coordinator
state, the per-device states fetched this cycle, every `get_state`
attempt in order (device id with the client it went through), and the
devices for which the local-to-cloud fallback block actually replaced the
controller. -/
structure PollOutcome where
  state : CoordState
  states : List (String × Nat)
  reads : List (String × Client)
  fallbacks : List String
deriving DecidableEq, Repr

/-- Body of the device loop in `_async_update_data` for one device.
`readResult id client` is the outcome of `controller.get_state()` for the
controller built over `client` (`none` models a raised exception). The
fallback block runs only when the device's recorded mode is local AND the
device id is present in `self.cloud_clients`; the controller and mode are
flipped to cloud BEFORE the retry read, so they stay cloud even when the
retry fails. -/
def pollDevice (devices : List (String × Device))
    (readResult : String → Client → Option Nat)
    (acc : PollOutcome) (entry : String × Controller) : PollOutcome :=
  let id := entry.1
  let ctrl := entry.2
  match readResult id ctrl.client with
  | some st =>
      { acc with
          states := acc.states ++ [(id, st)]
          reads := acc.reads ++ [(id, ctrl.client)] }
  | none =>
      let acc1 := { acc with reads := acc.reads ++ [(id, ctrl.client)] }
      if acc1.state.connectionModes.lookup id = some ConnMode.local then
        match acc1.state.cloudClients.lookup id with
        | some cloud =>
            match devices.lookup id with
            | some device =>
                match createController cloud device with
                | some newCtrl =>
                    let s1 :=
                      { acc1.state with
                          controllers := setAssoc acc1.state.controllers id newCtrl
                          connectionModes :=
                            setAssoc acc1.state.connectionModes id ConnMode.cloud }
                    let acc2 :=
                      { acc1 with state := s1, fallbacks := acc1.fallbacks ++ [id] }
                    match readResult id cloud with
                    | some st =>
                        { acc2 with
                            states := acc2.states ++ [(id, st)]
                            reads := acc2.reads ++ [(id, cloud)] }
                    | none =>
                        { acc2 with reads := acc2.reads ++ [(id, cloud)] }
                | none => acc1
            | none => acc1
        | none => acc1
      else acc1

/-- One polling cycle of `_async_update_data` over the controllers held at
the start of the cycle (setup already complete). -/
def updateData (devices : List (String × Device))
    (readResult : String → Client → Option Nat)
    (s : CoordState) : PollOutcome :=
  s.controllers.foldl (pollDevice devices readResult) ⟨s, [], [], []⟩

/-! ## Coordinator: initial setup failure taxonomy

`_async_setup` connects to the cloud API and discovers devices. A
`CloudAuthenticationError` from `connect` is re-raised as
`ConfigEntryAuthFailed`; any other exception from `connect`, and any
exception during discovery, is re-raised as `UpdateFailed`. Either
exception propagates out of the first refresh and aborts entry setup. -/

inductive ConnectOutcome where
  | ok
  | authError
  | otherError
deriving DecidableEq, Repr

inductive DiscoveryOutcome where
  | ok
  | error
deriving DecidableEq, Repr

inductive SetupError where
  | configEntryAuthFailed
  | updateFailed
deriving DecidableEq, Repr

/-- `AlnorDataUpdateCoordinator._async_setup`, reduced to its failure
taxonomy: which exception (if any) escapes, given the outcome of
`api.connect` and of the bridge/device discovery block. -/
def asyncSetup (connect : ConnectOutcome) (discovery : DiscoveryOutcome) :
    Except SetupError Unit :=
  match connect with
  | .authError => .error SetupError.configEntryAuthFailed
  | .otherError => .error SetupError.updateFailed
  | .ok =>
      match discovery with
      | .error => .error SetupError.updateFailed
      | .ok => .ok ()

/-- Concrete one-device scenario: a heat-recovery unit whose vendor host
address is reachable, so setup puts it in local mode. -/
def fallbackDevice : Device :=
  ⟨"d1", "192.168.1.50", PType.heatRecoveryUnit⟩

def fallbackSetup : SetupOutcome :=
  setupDeviceConnection [] (fun _ => true) true ⟨[], [], [], []⟩ fallbackDevice

/-- Read oracle where every local read raises and every cloud read would
succeed. -/
def fallbackReadResult : String → Client → Option Nat :=
  fun _ c =>
    match c with
    | Client.localClient _ => none
    | Client.cloudClient _ => some 7

def fallbackPoll : PollOutcome :=
  updateData [("d1", fallbackDevice)] fallbackReadResult fallbackSetup.state

/-- The same coordinator state with a cloud client manually injected for
the device, which the setup path never produces for a local-mode device. -/
def fallbackPatchedState : CoordState :=
  { fallbackSetup.state with cloudClients := [("d1", Client.cloudClient "d1")] }

def fallbackPatchedPoll : PollOutcome :=
  updateData [("d1", fallbackDevice)] fallbackReadResult fallbackPatchedState

/-- The threshold-comparison step shared by the mixin and climate checks,
abstracted over the thresholds and modes they plug in: high branch first,
strict comparisons, the recorded change time kept when nothing fires. -/
def bandPolicy (upper lower : Int) (highM lowM : String) (c : Int)
    (mode : Option String) (lastKeep : Option ℚ) (now : ℚ) : CheckResult :=
  if c > upper ∧ mode ≠ some highM then ⟨[highM], some now⟩
  else if c < lower ∧ mode ≠ some lowM then ⟨[lowM], some now⟩
  else ⟨[], lastKeep⟩

/-! ## Theorems -/

theorem lookup_append_fresh {α : Type} (l : List (String × α)) (k : String)
    (v : α) (h : l.lookup k = none) : (l ++ [(k, v)]).lookup k = some v := by
  induction l with
  | nil => simp [List.lookup]
  | cons p rest ih =>
      rw [List.cons_append, List.lookup]
      rw [List.lookup] at h
      rcases hkk : (k == p.1) with _ | _
      · rw [hkk] at h
        simp only [hkk]
        exact ih h
      · rw [hkk] at h
        simp at h

theorem setAssoc_lookup_fresh {α : Type} (l : List (String × α)) (k : String)
    (v : α) (h : l.lookup k = none) : (setAssoc l k v).lookup k = some v := by
  unfold setAssoc
  rw [h]
  simp only [Option.isSome_none, Bool.false_eq_true, if_false]
  exact lookup_append_fresh l k v h

/-- C1: for every humidity-control check in which control is enabled, the
humidity reading and the configured target are present, the cooldown has
elapsed (or no mode change is recorded), the reading is strictly above the
upper threshold that the implementation computes, and the current mode
differs from the configured high mode, both the mixin check and the
humidifier check issue exactly one mode-set command, its argument is the
configured high mode, and the recorded last mode change becomes the
current time. -/
theorem c1_high_humidity_sets_high_mode (o : HumidityOptions) (c t : Int)
    (mode : Option String) (last : Option ℚ) (now : ℚ)
    (htgt : o.target = some t)
    (hcool : ∀ t0 ∈ last, ((getHumidityConfig o).cooldown : ℚ) ≤ now - t0) :
    (c > mixinUpperThreshold t (getHumidityConfig o).hysteresis →
      mode ≠ some (getHumidityConfig o).highMode →
      mixinCheck ⟨true, o, some c, mode, last, now⟩
        = ⟨[(getHumidityConfig o).highMode], some now⟩) ∧
    (c > rawUpperThreshold t (o.hysteresis.getD 5) →
      mode ≠ some (o.highMode.getD "home_plus") →
      humidifierCheck ⟨true, o, some c, mode, last, now⟩
        = ⟨[o.highMode.getD "home_plus"], some now⟩) := by
  constructor
  · intro hc hm
    simp only [mixinUpperThreshold, getHumidityConfig] at hc
    simp only [getHumidityConfig] at hm
    cases last with
    | none =>
        simp [mixinCheck, getHumidityConfig, htgt, hc, hm]
    | some t0 =>
        have h1 : ¬(now - t0 < ((o.cooldown.getD 60 : Int) : ℚ)) := by
          have h2 := hcool t0 rfl
          simp only [getHumidityConfig, DEFAULT_HUMIDITY_COOLDOWN] at h2
          exact not_lt.mpr h2
        simp [mixinCheck, getHumidityConfig, DEFAULT_HUMIDITY_COOLDOWN,
          htgt, hc, hm, h1]
  · intro hc hm
    simp only [rawUpperThreshold] at hc
    cases last with
    | none =>
        simp [humidifierCheck, htgt, hc, hm]
    | some t0 =>
        have h1 : ¬(now - t0 < ((o.cooldown.getD 60 : Int) : ℚ)) := by
          have h2 := hcool t0 rfl
          simp only [getHumidityConfig, DEFAULT_HUMIDITY_COOLDOWN] at h2
          exact not_lt.mpr h2
        simp [humidifierCheck, HUMIDIFIER_HUMIDITY_CONTROL_COOLDOWN,
          htgt, hc, hm, h1]

theorem mixinCheck_cmds_length_le_one (i : CheckInput) :
    (mixinCheck i).cmds.length ≤ 1 := by
  obtain ⟨en, o, cur, mode, last, now⟩ := i
  cases en
  · simp [mixinCheck]
  · cases cur with
    | none => simp [mixinCheck]
    | some c =>
        rcases htgt : o.target with _ | t
        · simp [mixinCheck, getHumidityConfig, htgt]
        · cases last with
          | none =>
              simp only [mixinCheck, getHumidityConfig, htgt]
              split_ifs <;> simp
          | some t0 =>
              simp only [mixinCheck, getHumidityConfig, htgt]
              split_ifs <;> simp

theorem mixinCheck_fired_lastChange (i : CheckInput)
    (h : (mixinCheck i).cmds ≠ []) :
    (mixinCheck i).lastModeChange = some i.now := by
  obtain ⟨en, o, cur, mode, last, now⟩ := i
  cases en
  · simp [mixinCheck] at h
  · cases cur with
    | none => simp [mixinCheck] at h
    | some c =>
        rcases htgt : o.target with _ | t
        · simp [mixinCheck, getHumidityConfig, htgt] at h
        · cases last with
          | none =>
              simp only [mixinCheck, getHumidityConfig, htgt] at h ⊢
              split_ifs at h ⊢ <;> simp_all
          | some t0 =>
              simp only [mixinCheck, getHumidityConfig, htgt] at h ⊢
              split_ifs at h ⊢ <;> simp_all

theorem mixinCheck_cooldown_blocks (i : CheckInput) (t0 : ℚ)
    (hl : i.lastModeChange = some t0)
    (hc : i.now - t0 < ((getHumidityConfig i.options).cooldown : ℚ)) :
    (mixinCheck i).cmds = [] := by
  obtain ⟨en, o, cur, mode, last, now⟩ := i
  simp only at hl hc
  subst hl
  cases en
  · simp [mixinCheck]
  · cases cur with
    | none => simp [mixinCheck]
    | some c =>
        rcases htgt : o.target with _ | t
        · simp [mixinCheck, getHumidityConfig, htgt]
        · simp only [getHumidityConfig] at hc
          simp [mixinCheck, getHumidityConfig, htgt, hc]

theorem humidifierCheck_cmds_length_le_one (i : CheckInput) :
    (humidifierCheck i).cmds.length ≤ 1 := by
  obtain ⟨en, o, cur, mode, last, now⟩ := i
  cases en
  · simp [humidifierCheck]
  · cases cur with
    | none => simp [humidifierCheck]
    | some c =>
        rcases htgt : o.target with _ | t
        · simp [humidifierCheck, htgt]
        · cases last with
          | none =>
              simp only [humidifierCheck, htgt]
              split_ifs <;> simp
          | some t0 =>
              simp only [humidifierCheck, htgt]
              split_ifs <;> simp

theorem humidifierCheck_fired_lastChange (i : CheckInput)
    (h : (humidifierCheck i).cmds ≠ []) :
    (humidifierCheck i).lastModeChange = some i.now := by
  obtain ⟨en, o, cur, mode, last, now⟩ := i
  cases en
  · simp [humidifierCheck] at h
  · cases cur with
    | none => simp [humidifierCheck] at h
    | some c =>
        rcases htgt : o.target with _ | t
        · simp [humidifierCheck, htgt] at h
        · cases last with
          | none =>
              simp only [humidifierCheck, htgt] at h ⊢
              split_ifs at h ⊢ <;> simp_all
          | some t0 =>
              simp only [humidifierCheck, htgt] at h ⊢
              split_ifs at h ⊢ <;> simp_all

theorem humidifierCheck_cooldown_blocks (i : CheckInput) (t0 : ℚ)
    (hl : i.lastModeChange = some t0)
    (hc : i.now - t0 < ((getHumidityConfig i.options).cooldown : ℚ)) :
    (humidifierCheck i).cmds = [] := by
  obtain ⟨en, o, cur, mode, last, now⟩ := i
  simp only at hl hc
  subst hl
  cases en
  · simp [humidifierCheck]
  · cases cur with
    | none => simp [humidifierCheck]
    | some c =>
        rcases htgt : o.target with _ | t
        · simp [humidifierCheck, htgt]
        · simp only [getHumidityConfig, DEFAULT_HUMIDITY_COOLDOWN] at hc
          simp [humidifierCheck, HUMIDIFIER_HUMIDITY_CONTROL_COOLDOWN, htgt, hc]

/-- C5: running the humidity check twice in succession, the second run
before the configured cooldown has elapsed since the first, issues at most
one mode-set command in total (for both the mixin and the humidifier
implementations): each single check issues at most one command, and when
the first check fired, the second one's recorded change time blocks it. -/
theorem c5_two_checks_at_most_one_command (o : HumidityOptions)
    (cur1 cur2 : Option Int) (mode1 mode2 : Option String) (last : Option ℚ)
    (now1 now2 : ℚ) (en1 en2 : Bool)
    (hcool : now2 - now1 < ((getHumidityConfig o).cooldown : ℚ)) :
    (mixinCheck ⟨en1, o, cur1, mode1, last, now1⟩).cmds.length +
      (mixinCheck ⟨en2, o, cur2, mode2,
        (mixinCheck ⟨en1, o, cur1, mode1, last, now1⟩).lastModeChange,
        now2⟩).cmds.length ≤ 1 ∧
    (humidifierCheck ⟨en1, o, cur1, mode1, last, now1⟩).cmds.length +
      (humidifierCheck ⟨en2, o, cur2, mode2,
        (humidifierCheck ⟨en1, o, cur1, mode1, last, now1⟩).lastModeChange,
        now2⟩).cmds.length ≤ 1 := by
  constructor
  · by_cases hf : (mixinCheck ⟨en1, o, cur1, mode1, last, now1⟩).cmds = []
    · rw [hf]
      simpa using mixinCheck_cmds_length_le_one
        ⟨en2, o, cur2, mode2,
          (mixinCheck ⟨en1, o, cur1, mode1, last, now1⟩).lastModeChange, now2⟩
    · have hl := mixinCheck_fired_lastChange _ hf
      have h2 := mixinCheck_cooldown_blocks
        ⟨en2, o, cur2, mode2,
          (mixinCheck ⟨en1, o, cur1, mode1, last, now1⟩).lastModeChange, now2⟩
        now1 (by simpa using hl) hcool
      rw [h2]
      simpa using mixinCheck_cmds_length_le_one ⟨en1, o, cur1, mode1, last, now1⟩
  · by_cases hf : (humidifierCheck ⟨en1, o, cur1, mode1, last, now1⟩).cmds = []
    · rw [hf]
      simpa using humidifierCheck_cmds_length_le_one
        ⟨en2, o, cur2, mode2,
          (humidifierCheck ⟨en1, o, cur1, mode1, last, now1⟩).lastModeChange, now2⟩
    · have hl := humidifierCheck_fired_lastChange _ hf
      have h2 := humidifierCheck_cooldown_blocks
        ⟨en2, o, cur2, mode2,
          (humidifierCheck ⟨en1, o, cur1, mode1, last, now1⟩).lastModeChange, now2⟩
        now1 (by simpa using hl) hcool
      rw [h2]
      simpa using humidifierCheck_cmds_length_le_one
        ⟨en1, o, cur1, mode1, last, now1⟩

/-- Witness for C5 at a concrete input: the first check fires at time 0,
and 30 seconds later (cooldown 60) at most one command has been issued in
total. -/
theorem c5_two_checks_at_most_one_command_witness :
    (mixinCheck ⟨true, ⟨some 5, some 60, some "party", some "home", some 60⟩,
        some 70, some "home", none, 0⟩).cmds.length +
      (mixinCheck ⟨true, ⟨some 5, some 60, some "party", some "home", some 60⟩,
        some 70, some "home",
        (mixinCheck ⟨true, ⟨some 5, some 60, some "party", some "home", some 60⟩,
          some 70, some "home", none, 0⟩).lastModeChange, 30⟩).cmds.length ≤ 1 ∧
    (humidifierCheck ⟨true, ⟨some 5, some 60, some "party", some "home", some 60⟩,
        some 70, some "home", none, 0⟩).cmds.length +
      (humidifierCheck ⟨true, ⟨some 5, some 60, some "party", some "home", some 60⟩,
        some 70, some "home",
        (humidifierCheck ⟨true, ⟨some 5, some 60, some "party", some "home", some 60⟩,
          some 70, some "home", none, 0⟩).lastModeChange, 30⟩).cmds.length ≤ 1 :=
  c5_two_checks_at_most_one_command
    ⟨some 5, some 60, some "party", some "home", some 60⟩
    (some 70) (some 70) (some "home") (some "home") none 0 30 true true
    (by norm_num [getHumidityConfig, DEFAULT_HUMIDITY_COOLDOWN])

theorem mixinCheck_reduce_band (hy : Option Int) (t : Int)
    (hi lo : Option String) (cd : Option Int) (c : Int) (mode : Option String)
    (last : Option ℚ) (now : ℚ)
    (hgate : ∀ t0 ∈ last, ¬(now - t0 < ((cd.getD 60 : Int) : ℚ))) :
    mixinCheck ⟨true, ⟨hy, some t, hi, lo, cd⟩, some c, mode, last, now⟩
      = bandPolicy (min (t + hy.getD 5) 99) (max (t - hy.getD 5) 1)
          (hi.getD "home_plus") (lo.getD "home") c mode last now := by
  cases last with
  | none => rfl
  | some t0 =>
      have h1 := hgate t0 rfl
      simp [mixinCheck, getHumidityConfig, DEFAULT_HUMIDITY_COOLDOWN,
        DEFAULT_HUMIDITY_HYSTERESIS, DEFAULT_HUMIDITY_HIGH_MODE,
        DEFAULT_HUMIDITY_LOW_MODE, bandPolicy, h1]

theorem climateCheck_reduce_band (hy : Option Int) (t : Int)
    (hi lo : Option String) (cd : Option Int) (c : Int) (mode : Option String)
    (last : Option ℚ) (now : ℚ)
    (hgate : ∀ t0 ∈ last, ¬(now - t0 < ((120 : Int) : ℚ))) :
    climateCheck ⟨true, ⟨hy, some t, hi, lo, cd⟩, some c, mode, last, now⟩
      = bandPolicy (t + hy.getD 5) (t - hy.getD 5)
          (hi.getD "party") (lo.getD "home") c mode last now := by
  cases last with
  | none => rfl
  | some t0 =>
      have h1 : ¬(now - t0 < (120 : ℚ)) := by
        have h2 := hgate t0 rfl
        exact_mod_cast h2
      simp [climateCheck, CLIMATE_HUMIDITY_CONTROL_COOLDOWN, bandPolicy, h1]

theorem humidifierCheck_reduce_band (hy : Option Int) (t : Int)
    (hi lo : Option String) (cd : Option Int) (c : Int) (mode : Option String)
    (last : Option ℚ) (now : ℚ)
    (hgate : ∀ t0 ∈ last, ¬(now - t0 < ((cd.getD 60 : Int) : ℚ)))
    (hband : t - hy.getD 5 ≤ t + hy.getD 5) :
    humidifierCheck ⟨true, ⟨hy, some t, hi, lo, cd⟩, some c, mode, last, now⟩
      = bandPolicy (t + hy.getD 5) (t - hy.getD 5)
          (hi.getD "home_plus") (lo.getD "home") c mode last now := by
  have hbody : ∀ keep : Option ℚ,
      (if c > t + hy.getD 5 then
        (if mode ≠ some (hi.getD "home_plus") then
          (⟨[hi.getD "home_plus"], some now⟩ : CheckResult)
        else ⟨[], keep⟩)
      else if c < t - hy.getD 5 ∧ mode ≠ some (lo.getD "home") then
        ⟨[lo.getD "home"], some now⟩
      else ⟨[], keep⟩)
      = bandPolicy (t + hy.getD 5) (t - hy.getD 5)
          (hi.getD "home_plus") (lo.getD "home") c mode keep now := by
    intro keep
    by_cases h1 : c > t + hy.getD 5
    · by_cases h2 : mode = some (hi.getD "home_plus")
      · have h3 : ¬(c < t - hy.getD 5) := by omega
        simp [bandPolicy, h1, h2, h3]
      · simp [bandPolicy, h1, h2]
    · simp [bandPolicy, h1]
  cases last with
  | none =>
      have h2 := hbody none
      simpa [humidifierCheck] using h2
  | some t0 =>
      have h1 := hgate t0 rfl
      have h2 := hbody (some t0)
      simpa [humidifierCheck, HUMIDIFIER_HUMIDITY_CONTROL_COOLDOWN, h1] using h2

/-- C7 counterexample: on the identical input (target 98, hysteresis 5,
high mode "party", low mode "home", cooldown 60, humidity 100, current
mode "home", no recorded change), the mixin check fires the high mode
while both the climate and humidifier checks do nothing, so the three
implementations do not compute the same decision on every identical
input. -/
theorem c7_implementations_disagree_counterexample :
    mixinCheck ⟨true, ⟨some 5, some 98, some "party", some "home", some 60⟩,
        some 100, some "home", none, 0⟩ = ⟨["party"], some 0⟩ ∧
    climateCheck ⟨true, ⟨some 5, some 98, some "party", some "home", some 60⟩,
        some 100, some "home", none, 0⟩ = ⟨[], none⟩ ∧
    humidifierCheck ⟨true, ⟨some 5, some 98, some "party", some "home", some 60⟩,
        some 100, some "home", none, 0⟩ = ⟨[], none⟩ ∧
    mixinCheck ⟨true, ⟨some 5, some 98, some "party", some "home", some 60⟩,
        some 100, some "home", none, 0⟩
      ≠ climateCheck ⟨true, ⟨some 5, some 98, some "party", some "home", some 60⟩,
        some 100, some "home", none, 0⟩ := by
  refine ⟨by decide, by decide, by decide, by decide⟩

/-- C7 amended: the three `_check_humidity_control` implementations
compute the same decision on every identical input in which the high mode
is explicitly configured, the resolved hysteresis is non-negative, the
unclamped band already lies inside [1, 99] (so the mixin's clamping is a
no-op), and any recorded last change is old enough for both the
configured cooldown and climate.py's fixed 120-second cooldown; outside
those conditions they can differ (mixin clamps thresholds, climate
ignores the configured cooldown and defaults the high mode to "party"). -/
theorem c7_agreement_inside_common_region (o : HumidityOptions) (hi : String)
    (en : Bool) (cur : Option Int) (mode : Option String) (last : Option ℚ)
    (now : ℚ)
    (hhi : o.highMode = some hi)
    (hh0 : 0 ≤ o.hysteresis.getD 5)
    (hbounds : ∀ t ∈ o.target,
      1 ≤ t - o.hysteresis.getD 5 ∧ t + o.hysteresis.getD 5 ≤ 99)
    (hcool : ∀ t0 ∈ last,
      ((o.cooldown.getD 60 : Int) : ℚ) ≤ now - t0 ∧ ((120 : Int) : ℚ) ≤ now - t0) :
    mixinCheck ⟨en, o, cur, mode, last, now⟩
      = climateCheck ⟨en, o, cur, mode, last, now⟩ ∧
    mixinCheck ⟨en, o, cur, mode, last, now⟩
      = humidifierCheck ⟨en, o, cur, mode, last, now⟩ := by
  obtain ⟨hy, tgt, hiField, lo, cd⟩ := o
  simp only at hhi hh0 hbounds hcool
  subst hhi
  cases en
  · exact ⟨by simp [mixinCheck, climateCheck], by simp [mixinCheck, humidifierCheck]⟩
  · cases cur with
    | none =>
        exact ⟨by simp [mixinCheck, climateCheck, getHumidityConfig],
          by simp [mixinCheck, humidifierCheck, getHumidityConfig]⟩
    | some c =>
        rcases htgt : tgt with _ | t
        · subst htgt
          exact ⟨by simp [mixinCheck, climateCheck, getHumidityConfig],
            by simp [mixinCheck, humidifierCheck, getHumidityConfig]⟩
        · subst htgt
          obtain ⟨hb1, hb2⟩ := hbounds t rfl
          have hgate1 : ∀ t0 ∈ last, ¬(now - t0 < ((cd.getD 60 : Int) : ℚ)) := by
            intro t0 ht0
            exact not_lt.mpr (hcool t0 ht0).1
          have hgate2 : ∀ t0 ∈ last, ¬(now - t0 < ((120 : Int) : ℚ)) := by
            intro t0 ht0
            exact not_lt.mpr (hcool t0 ht0).2
          have e1 : min (t + hy.getD 5) 99 = t + hy.getD 5 := by omega
          have e2 : max (t - hy.getD 5) 1 = t - hy.getD 5 := by omega
          rw [mixinCheck_reduce_band hy t (some hi) lo cd c mode last now hgate1,
            climateCheck_reduce_band hy t (some hi) lo cd c mode last now hgate2,
            humidifierCheck_reduce_band hy t (some hi) lo cd c mode last now
              hgate1 (by omega), e1, e2]
          exact ⟨rfl, rfl⟩

/-- Witness for C7 at a concrete input inside the agreement region:
target 60, hysteresis 5, high mode "party", humidity 70, current mode
"home", no recorded change — all three checks agree. -/
theorem c7_agreement_inside_common_region_witness :
    mixinCheck ⟨true, ⟨some 5, some 60, some "party", some "home", some 60⟩,
        some 70, some "home", none, 0⟩
      = climateCheck ⟨true, ⟨some 5, some 60, some "party", some "home", some 60⟩,
        some 70, some "home", none, 0⟩ ∧
    mixinCheck ⟨true, ⟨some 5, some 60, some "party", some "home", some 60⟩,
        some 70, some "home", none, 0⟩
      = humidifierCheck ⟨true, ⟨some 5, some 60, some "party", some "home", some 60⟩,
        some 70, some "home", none, 0⟩ :=
  c7_agreement_inside_common_region
    ⟨some 5, some 60, some "party", some "home", some 60⟩ "party" true
    (some 70) (some "home") none 0 rfl (by decide)
    (by intro t ht; simp at ht; subst ht; decide)
    (by intro t0 ht0; simp at ht0)

/-- C3 counterexample: with target 98 and hysteresis 5 the climate check
compares against the unclamped threshold 103, not 99: at humidity 100
(above 99, mode differing from both configured modes, control enabled, no
cooldown pending) it issues no command, which contradicts the claim that
every humidity-control check reaching the threshold comparison uses
`min(target + hysteresis, 99)` as the upper threshold. -/
theorem c3_climate_unclamped_counterexample :
    climateCheck ⟨true, ⟨some 5, some 98, some "party", some "home", some 60⟩,
        some 100, some "auto", none, 0⟩ = ⟨[], none⟩ ∧
    rawUpperThreshold 98 5 = 103 ∧
    mixinUpperThreshold 98 5 = 99 := by
  refine ⟨?_, by decide, by decide⟩
  simp [climateCheck, bandPolicy]

/-- C3 amended: only the mixin's check compares against the clamped
thresholds `min(target + hysteresis, 99)` and `max(target - hysteresis, 1)`;
the climate check compares against the unclamped `target ± hysteresis`, so
with target 98 and hysteresis 5 the mixin uses 99 while climate.py uses
103. Stated by reducing both checks (enabled, no pending change) to the
shared threshold step at their respective thresholds. -/
theorem c3_mixin_clamps_climate_does_not (hy : Option Int) (t : Int)
    (hi lo : Option String) (cd : Option Int) (c : Int)
    (mode : Option String) (now : ℚ) :
    mixinCheck ⟨true, ⟨hy, some t, hi, lo, cd⟩, some c, mode, none, now⟩
      = bandPolicy (mixinUpperThreshold t (hy.getD 5))
          (mixinLowerThreshold t (hy.getD 5))
          (hi.getD "home_plus") (lo.getD "home") c mode none now ∧
    climateCheck ⟨true, ⟨hy, some t, hi, lo, cd⟩, some c, mode, none, now⟩
      = bandPolicy (rawUpperThreshold t (hy.getD 5))
          (rawLowerThreshold t (hy.getD 5))
          (hi.getD "party") (lo.getD "home") c mode none now ∧
    mixinUpperThreshold 98 5 = 99 ∧
    rawUpperThreshold 98 5 = 103 := by
  refine ⟨rfl, rfl, by decide, by decide⟩

/-- C4: in the mixin's check, a humidity reading lying inside the closed
band between the (clamped) lower and upper thresholds issues no command
and leaves the recorded last mode change unchanged, whatever the current
mode, the enabled flag and the cooldown state; in particular with target
60 and hysteresis 5, humidity 65 does not trigger the high mode while
humidity 66 does. -/
theorem c4_band_holds_mode (en : Bool) (hy : Option Int) (t : Int)
    (hi lo : Option String) (cd : Option Int) (c : Int)
    (mode : Option String) (last : Option ℚ) (now : ℚ)
    (hlow : mixinLowerThreshold t (hy.getD 5) ≤ c)
    (hup : c ≤ mixinUpperThreshold t (hy.getD 5)) :
    mixinCheck ⟨en, ⟨hy, some t, hi, lo, cd⟩, some c, mode, last, now⟩
        = ⟨[], last⟩ ∧
    mixinCheck ⟨true, ⟨some 5, some 60, some "party", some "home", some 60⟩,
        some 65, some "home", none, 0⟩ = ⟨[], none⟩ ∧
    mixinCheck ⟨true, ⟨some 5, some 60, some "party", some "home", some 60⟩,
        some 66, some "home", none, 0⟩ = ⟨["party"], some 0⟩ := by
  simp only [mixinLowerThreshold, mixinUpperThreshold] at hlow hup
  have hnotup : ¬(c > min (t + hy.getD 5) 99) := by omega
  have hnotlow : ¬(c < max (t - hy.getD 5) 1) := by omega
  refine ⟨?_, by decide, by decide⟩
  cases en with
  | false => simp [mixinCheck]
  | true =>
      cases last with
      | none =>
          simp [mixinCheck, getHumidityConfig, DEFAULT_HUMIDITY_HYSTERESIS,
            hnotup, hnotlow]
      | some t0 =>
          by_cases hcd : now - t0 < ((cd.getD 60 : Int) : ℚ)
          · simp [mixinCheck, getHumidityConfig, DEFAULT_HUMIDITY_COOLDOWN, hcd]
          · simp [mixinCheck, getHumidityConfig, DEFAULT_HUMIDITY_HYSTERESIS,
              DEFAULT_HUMIDITY_COOLDOWN, hcd, hnotup, hnotlow]

/-- Witness for C4 at a concrete input: humidity 62 inside the band
[55, 65] of target 60 and hysteresis 5, mode differing from both
configured modes. -/
theorem c4_band_holds_mode_witness :
    mixinCheck ⟨true, ⟨some 5, some 60, some "party", some "home", some 60⟩,
        some 62, some "away", none, 0⟩ = ⟨[], none⟩ := by
  have h := c4_band_holds_mode true (some 5) 60 (some "party") (some "home")
    (some 60) 62 (some "away") none 0 (by decide) (by decide)
  exact h.1

/-- Witness for C1 at a concrete input: target 60, hysteresis 5, high mode
"party", humidity 70, current mode "home", no previous change. -/
theorem c1_high_humidity_sets_high_mode_witness :
    mixinCheck ⟨true, ⟨some 5, some 60, some "party", some "home", some 60⟩,
        some 70, some "home", none, 0⟩ = ⟨["party"], some 0⟩ ∧
    humidifierCheck ⟨true, ⟨some 5, some 60, some "party", some "home", some 60⟩,
        some 70, some "home", none, 0⟩ = ⟨["party"], some 0⟩ := by
  have h := c1_high_humidity_sets_high_mode
    ⟨some 5, some 60, some "party", some "home", some 60⟩ 70 60
    (some "home") none 0 rfl (by intro t0 ht0; simp at ht0)
  exact ⟨h.1 (by decide) (by decide), h.2 (by decide) (by decide)⟩

/-- C9: a call to set the target humidity with a value outside 0–100 is
rejected: in both the humidifier and climate implementations the cached
target, the persisted options, and the humidity-control state are
unchanged and no effect is performed (no persistence, no state write, no
immediate humidity check). -/
theorem c9_invalid_humidity_rejected (tc : Option Int) (o : HumidityOptions)
    (ctl : CtlState) (h : Int) (hbad : h < 0 ∨ 100 < h) :
    humidifierSetHumidity tc o ctl h = ⟨tc, o, ctl, []⟩ ∧
    climateSetHumidity o ctl h = ⟨o, ctl, []⟩ := by
  constructor
  · simp [humidifierSetHumidity, hbad]
  · simp [climateSetHumidity, hbad]

/-- Witness for C9 at a concrete input: humidity 101 is rejected with no
state change and no effects. -/
theorem c9_invalid_humidity_rejected_witness :
    humidifierSetHumidity (some 50)
        ⟨some 5, some 60, some "party", some "home", some 60⟩
        ⟨true, none⟩ 101
      = ⟨some 50, ⟨some 5, some 60, some "party", some "home", some 60⟩,
          ⟨true, none⟩, []⟩ ∧
    climateSetHumidity ⟨some 5, some 60, some "party", some "home", some 60⟩
        ⟨true, none⟩ 101
      = ⟨⟨some 5, some 60, some "party", some "home", some 60⟩,
          ⟨true, none⟩, []⟩ :=
  c9_invalid_humidity_rejected (some 50)
    ⟨some 5, some 60, some "party", some "home", some 60⟩
    ⟨true, none⟩ 101 (by decide)

/-- C10: the aggregated current humidity is the maximum of the
integer-truncated parseable sensor readings: a reading parses only through
`int(float(...))` truncation toward zero, unavailable/unknown/missing/
unparseable readings are skipped without affecting the result, the result
is `none` exactly when no reading parses, and any returned value is the
maximum of the parsed values; in particular a sensor reporting 65.9
contributes 65, so with target 60 and hysteresis 5 (upper threshold 65)
it does not trigger the high mode. -/
theorem c10_humidity_aggregation :
    parseSensor (SensorVal.num (mkRat 659 10)) = some 65 ∧
    getCurrentHumidity [SensorVal.num (mkRat 659 10)] = some 65 ∧
    (∀ l : List SensorVal,
      (getCurrentHumidity l = none ↔ l.filterMap parseSensor = [])) ∧
    (∀ (l : List SensorVal) (h : Int), getCurrentHumidity l = some h →
      h ∈ l.filterMap parseSensor ∧ ∀ x ∈ l.filterMap parseSensor, x ≤ h) ∧
    (∀ (l : List SensorVal) (s : SensorVal), parseSensor s = none →
      getCurrentHumidity (s :: l) = getCurrentHumidity l) ∧
    mixinCheck ⟨true, ⟨some 5, some 60, some "party", some "home", some 60⟩,
        getCurrentHumidity [SensorVal.num (mkRat 659 10)],
        some "home", none, 0⟩ = ⟨[], none⟩ := by
  refine ⟨by decide, by decide, ?_, ?_, ?_, by decide⟩
  · intro l
    simp [getCurrentHumidity, List.max?_eq_none_iff]
  · intro l h hmax
    have inst : Std.Antisymm (α := Int) (· ≤ ·) := ⟨@le_antisymm Int _⟩
    unfold getCurrentHumidity at hmax
    rw [List.max?_eq_some_iff (fun a => le_refl a) (fun a b => max_choice a b)
      (fun a b c => max_le_iff)] at hmax
    exact hmax
  · intro l s hs
    simp [getCurrentHumidity, hs]

/-- Witness for C10 at a concrete input: a single sensor reporting 65.9
contributes 65, which is the maximum of the parsed values. -/
theorem c10_humidity_aggregation_witness :
    (65 : Int) ∈ [SensorVal.num (mkRat 659 10)].filterMap parseSensor ∧
    ∀ x ∈ [SensorVal.num (mkRat 659 10)].filterMap parseSensor, x ≤ 65 :=
  c10_humidity_aggregation.2.2.2.1 [SensorVal.num (mkRat 659 10)] 65 (by decide)

theorem createController_known (cl : Client) (d : Device)
    (h : d.productType ≠ PType.other) :
    createController cl d = some ⟨cl, d⟩ := by
  cases hpt : d.productType <;> simp [createController, hpt]
  exact absurd hpt h

/-- C2: the runtime local-to-cloud fallback never happens. A device put in
local mode by setup has no entry in `cloud_clients` (those are created
only on the cloud setup path), so when its state read raises, the guard
`device_id in self.cloud_clients` fails: the device is omitted with no
cloud retry, no controller switch, and its mode stays local — even though
a cloud read would have succeeded. Were a cloud client present (patched
state), the same cycle would have switched the device to cloud and
retried successfully, showing the fallback block itself is sound but
unreachable. -/
theorem c2_local_fallback_never_attempted :
    fallbackSetup.state.connectionModes.lookup "d1" = some ConnMode.local ∧
    fallbackSetup.state.cloudClients.lookup "d1" = none ∧
    fallbackPoll.states = [] ∧
    fallbackPoll.fallbacks = [] ∧
    fallbackPoll.reads = [("d1", Client.localClient "192.168.1.50")] ∧
    fallbackPoll.state.connectionModes.lookup "d1" = some ConnMode.local ∧
    fallbackPatchedPoll.states = [("d1", 7)] ∧
    fallbackPatchedPoll.fallbacks = ["d1"] ∧
    fallbackPatchedPoll.state.connectionModes.lookup "d1"
      = some ConnMode.cloud := by
  decide

/-- C6: when no candidate local address exists or the local Modbus
connection attempt fails during setup (and the API session is up), a
device of a recognized product type ends with connection mode cloud and a
controller built over its cloud client, recorded exactly once; for an
unrecognized product type neither a controller nor a connection mode is
recorded. -/
theorem c6_cloud_fallback_at_setup (localIps : List (String × String))
    (lco : String → Bool) (s : CoordState) (device : Device)
    (hfresh1 : s.controllers.lookup device.deviceId = none)
    (hfresh2 : s.connectionModes.lookup device.deviceId = none)
    (hnolocal : candidateLocalIp localIps device = ""
      ∨ lco (candidateLocalIp localIps device) = false) :
    (device.productType ≠ PType.other →
      (setupDeviceConnection localIps lco true s device).state.connectionModes.lookup
          device.deviceId = some ConnMode.cloud ∧
      (setupDeviceConnection localIps lco true s device).state.controllers.lookup
          device.deviceId
        = some ⟨Client.cloudClient device.deviceId, device⟩ ∧
      (setupDeviceConnection localIps lco true s device).events.count
          (SetupEvent.builtController (Client.cloudClient device.deviceId)) = 1) ∧
    (device.productType = PType.other →
      (setupDeviceConnection localIps lco true s device).state.connectionModes.lookup
          device.deviceId = none ∧
      (setupDeviceConnection localIps lco true s device).state.controllers.lookup
          device.deviceId = none) := by
  have hcond : ¬(candidateLocalIp localIps device ≠ ""
      ∧ lco (candidateLocalIp localIps device) = true) := by
    rcases hnolocal with h | h <;> simp [h]
  constructor
  · intro hk
    simp only [setupDeviceConnection, hcond, if_false, if_true,
      createController_known _ _ hk]
    refine ⟨?_, ?_, ?_⟩
    · exact setAssoc_lookup_fresh _ _ _ hfresh2
    · exact setAssoc_lookup_fresh _ _ _ hfresh1
    · simp [List.count_cons, List.count_nil]
  · intro hk
    simp only [setupDeviceConnection, hcond, if_false, if_true,
      createController, hk]
    exact ⟨hfresh2, hfresh1⟩

/-- Witness for C6 at a concrete input: a heat-recovery unit with no
configured override and an empty vendor host (no candidate address) over
an empty coordinator state. -/
theorem c6_cloud_fallback_at_setup_witness :
    (setupDeviceConnection [] (fun _ => true) true ⟨[], [], [], []⟩
        ⟨"d9", "", PType.heatRecoveryUnit⟩).state.connectionModes.lookup "d9"
      = some ConnMode.cloud ∧
    (setupDeviceConnection [] (fun _ => true) true ⟨[], [], [], []⟩
        ⟨"d9", "", PType.heatRecoveryUnit⟩).state.controllers.lookup "d9"
      = some ⟨Client.cloudClient "d9",
          ⟨"d9", "", PType.heatRecoveryUnit⟩⟩ ∧
    (setupDeviceConnection [] (fun _ => true) true ⟨[], [], [], []⟩
        ⟨"d9", "", PType.heatRecoveryUnit⟩).events.count
        (SetupEvent.builtController (Client.cloudClient "d9")) = 1 :=
  (c6_cloud_fallback_at_setup [] (fun _ => true) ⟨[], [], [], []⟩
    ⟨"d9", "", PType.heatRecoveryUnit⟩ rfl rfl (Or.inl rfl)).1 (by decide)

/-- C8: during initial coordinator setup, an authentication failure from
the cloud API connect call raises the needs-re-authentication error, and
only authentication failures do; any other connect failure and any
discovery failure raise the update-failed condition, and setup completes
only when both steps succeed (any error aborts the whole setup). -/
theorem c8_setup_failure_taxonomy (co : ConnectOutcome)
    (d : DiscoveryOutcome) :
    (asyncSetup co d = Except.error SetupError.configEntryAuthFailed
      ↔ co = ConnectOutcome.authError) ∧
    (co = ConnectOutcome.otherError →
      asyncSetup co d = Except.error SetupError.updateFailed) ∧
    (co = ConnectOutcome.ok → d = DiscoveryOutcome.error →
      asyncSetup co d = Except.error SetupError.updateFailed) ∧
    (asyncSetup co d = Except.ok ()
      ↔ co = ConnectOutcome.ok ∧ d = DiscoveryOutcome.ok) := by
  cases co <;> cases d <;> simp [asyncSetup]

/-- Witness for C8 at concrete inputs: an authentication failure raises
the re-authentication error and a discovery failure raises the
update-failed condition. -/
theorem c8_setup_failure_taxonomy_witness :
    asyncSetup ConnectOutcome.authError DiscoveryOutcome.ok
      = Except.error SetupError.configEntryAuthFailed ∧
    asyncSetup ConnectOutcome.ok DiscoveryOutcome.error
      = Except.error SetupError.updateFailed :=
  ⟨(c8_setup_failure_taxonomy ConnectOutcome.authError DiscoveryOutcome.ok).1.mpr
      rfl,
    (c8_setup_failure_taxonomy ConnectOutcome.ok
      DiscoveryOutcome.error).2.2.1 rfl rfl⟩

end Alnor
